import Mathlib

/-!
# Verification of the transaction-processing core of a prepaid-credit reseller backend

This file shallowly embeds `internal/repository/transaction_repository.go`:
the `Create` (order submission), `GetAll` (list by user) and `GetById`
operations of the transaction repository, together with the relational
state they act on.

Modelling conventions:
* Monetary amounts (`float64` in the source, used only for sums, subtraction
  and comparison) are modelled as exact rationals `Rat`.
* Database-generated identifiers (`RETURNING transaction_id` /
  `transaction_detail_id`) are opaque strings in the source; they are
  modelled as naturals drawn from per-table counters in the store state.
* The SQL store is a record of association lists; the SQL transaction
  (begin / rollback / commit) is modelled by returning either the updated
  store (commit) or the original store (rollback).
* Store-level failures that the Go code can observe through `database/sql`
  errors (failed begin, failed insert, failed scan, failed update, failed
  commit) are modelled by a fault-injection record `Faults`; "row not found"
  failures (missing merchant, missing product) arise naturally from lookup.
* Go's `time.Parse("02-01-2006", s)` (strict dd-mm-yyyy) is modelled by
  `parseDate`, and `Format("02-01-2006")` by `formatDate`.
* A Go `map` preserves no ordering: its iteration order is unspecified.
  Wherever the source iterates a map to build the final result (`GetAll`),
  the model takes the iteration order as an explicit parameter ranging over
  permutations; the insertion-ordered association list stands for the map
  contents themselves.
-/

namespace Pulsa

/-! ## Calendar dates and the strict dd-mm-yyyy format -/

structure Date where
  day : Nat
  month : Nat
  year : Nat
  deriving DecidableEq

def isLeap (y : Nat) : Bool :=
  (y % 4 == 0 && y % 100 != 0) || y % 400 == 0

def daysIn (m y : Nat) : Nat :=
  if m == 2 then (if isLeap y then 29 else 28)
  else if m == 4 || m == 6 || m == 9 || m == 11 then 30
  else 31

def digitVal (c : Char) : Option Nat :=
  if c.isDigit then some (c.toNat - Char.toNat '0') else none

def twoDigits (a b : Char) : Option Nat := do
  let x ← digitVal a
  let y ← digitVal b
  pure (10 * x + y)

def fourDigits (a b c d : Char) : Option Nat := do
  let x ← twoDigits a b
  let y ← twoDigits c d
  pure (100 * x + y)

/-- Model of Go `time.Parse("02-01-2006", s)`: exactly two digits for the
day, a dash, exactly two digits for the month, a dash, exactly four digits
for the year, with the month in 1..12 and the day in range for the month
(leap years respected). Anything else is a parse error (`none`). -/
def parseDate (s : String) : Option Date :=
  match s.toList with
  | [d1, d2, '-', m1, m2, '-', y1, y2, y3, y4] => do
    let d ← twoDigits d1 d2
    let m ← twoDigits m1 m2
    let y ← fourDigits y1 y2 y3 y4
    if 1 ≤ m && m ≤ 12 && 1 ≤ d && d ≤ daysIn m y then
      pure (Date.mk d m y)
    else
      none
  | _ => none

def pad2 (n : Nat) : String :=
  if n < 10 then "0" ++ toString n else toString n

def pad4 (n : Nat) : String :=
  if n < 10 then "000" ++ toString n
  else if n < 100 then "00" ++ toString n
  else if n < 1000 then "0" ++ toString n
  else toString n

/-- Model of Go `t.Format("02-01-2006")`. -/
def formatDate (d : Date) : String :=
  pad2 d.day ++ "-" ++ pad2 d.month ++ "-" ++ pad4 d.year

/-- Date comparison `a ≤ b` as a boolean, year-month-day lexicographically. -/
def Date.leb (a b : Date) : Bool :=
  a.year < b.year ||
    (a.year == b.year &&
      (a.month < b.month ||
        (a.month == b.month && a.day ≤ b.day)))

/-! ## The relational store

Tables touched by the transaction repository: `mst_merchant` (only the
balance column is read and written here), `mst_product` (nominal and price
columns are read), `transactions` and `transaction_detail` (inserted into).
-/

/-- Catalog row of `mst_product`: the two columns the submission reads. -/
structure Product where
  nominal : Rat
  price : Rat
  deriving DecidableEq

/-- Row of the `transactions` table as inserted by `Create`. -/
structure TransactionRow where
  transactionId : Nat
  merchantId : String
  userId : String
  customerName : String
  destinationNumber : String
  transactionDate : Date
  deriving DecidableEq

/-- Row of the `transaction_detail` table as inserted by `Create`. -/
structure DetailRow where
  transactionDetailId : Nat
  transactionId : Nat
  productId : String
  price : Rat
  deriving DecidableEq

/-- The store state visible to the transaction repository.  Merchant rows
are keyed by `id_merchant` and carry the balance; product rows are keyed by
`id_product`.  `nextTransactionId` and `nextDetailId` model the generated
identifiers returned by the two `INSERT ... RETURNING` statements. -/
structure DB where
  merchants : List (String × Rat)
  products : List (String × Product)
  transactions : List TransactionRow
  details : List DetailRow
  nextTransactionId : Nat
  nextDetailId : Nat
  deriving DecidableEq

/-! ## The submission payload (`entity.Transactions`) -/

/-- Mirror of `entity.TransactionDetail` as used by the repository: the caller
supplies `productId` and a (not trusted) `price`; the identifier fields are
filled in during submission. -/
structure TransactionDetail where
  transactionDetailId : Nat
  transactionsId : Nat
  productId : String
  price : Rat
  deriving DecidableEq

/-- Mirror of `entity.Transactions` as used by the repository. -/
structure Transactions where
  transactionsId : Nat
  merchantId : String
  userId : String
  customerName : String
  destinationNumber : String
  transactionDate : String
  transactionDetail : List TransactionDetail
  deriving DecidableEq

/-- Errors `Create` can return.  `invalidDate` is the pre-storage
validation error; `beginFailed` and `storage` are store failures propagated
verbatim; `insufficientFunds` carries the required total nominal and the
available balance, in that order, as in the source's error message
`"insufficient merchant balance: required %v, current balance %v"`. -/
inductive CreateError where
  | invalidDate
  | beginFailed
  | storage
  | insufficientFunds (required : Rat) (available : Rat)
  deriving DecidableEq

/-- Fault injection for the store operations of a submission that can fail
at the `database/sql` level even when the referenced rows exist.  Per-line
faults are keyed by the line's position. -/
structure Faults where
  beginFail : Bool
  headerFail : Bool
  lineFail : List Bool
  priceReadFail : List Bool
  balanceUpdateFail : Bool
  commitFail : Bool
  deriving DecidableEq

def noFaults : Faults :=
  { beginFail := false
    headerFail := false
    lineFail := []
    priceReadFail := []
    balanceUpdateFail := false
    commitFail := false }

/-- Model of `SELECT ... WHERE id = $1` on a keyed table: the first row whose key
equals `k`, if any. -/
def findRow {β : Type} (k : String) : List (String × β) → Option β
  | [] => none
  | kv :: rest => if kv.1 = k then some kv.2 else findRow k rest

/-- The loop at lines 56-68 of the source: one `SELECT nominal FROM
mst_product` per line, summed into `totalNominal`; a missing product row
aborts with a storage error (`none`). -/
def sumNominals (db : DB) : List TransactionDetail → Option Rat
  | [] => some 0
  | d :: ds =>
    match findRow d.productId db.products with
    | none => none
    | some p =>
      match sumNominals db ds with
      | none => none
      | some rest => some (p.nominal + rest)

/-- The `UPDATE mst_merchant SET balance = balance - $1 WHERE id_merchant =
$2` statement: subtract `amt` from every row keyed `k`. -/
def debit (ms : List (String × Rat)) (k : String) (amt : Rat) : List (String × Rat) :=
  ms.map (fun kv => if kv.1 = k then (kv.1, kv.2 - amt) else kv)

/-- The per-line loop at lines 92-115 of the source.  For line `i`:
insert a `transaction_detail` row carrying the caller-supplied price
(`detail.price` at this point is still the caller's value), receive a
generated identifier, record it on the in-memory detail, then re-read the
product's sell price and overwrite the in-memory detail's price with it.
Returns the inserted rows, the updated in-memory details, and the next
fresh detail identifier. -/
def processLines (db : DB) (f : Faults) (txId : Nat) :
    Nat → Nat → List TransactionDetail →
    Except CreateError (List DetailRow × List TransactionDetail × Nat)
  | nextDid, _, [] => .ok ([], [], nextDid)
  | nextDid, idx, d :: ds =>
    if f.lineFail.getD idx false then .error .storage
    else if f.priceReadFail.getD idx false then .error .storage
    else
      match findRow d.productId db.products with
      | none => .error .storage
      | some prod =>
        match processLines db f txId (nextDid + 1) (idx + 1) ds with
        | .error e => .error e
        | .ok (rows, ds2, did) =>
          .ok ({ transactionDetailId := nextDid
                 transactionId := txId
                 productId := d.productId
                 price := d.price } :: rows,
               { d with
                 transactionDetailId := nextDid
                 transactionsId := txId
                 price := prod.price } :: ds2,
               did)

/-- Result of a submission: what `Create` returns to the caller, together
with the store state after the unit resolved (the original state when the
unit was rolled back, the updated state when it committed). -/
structure CreateOut where
  result : Except CreateError Transactions
  db : DB

/-- Shallow embedding of `transactionRepository.Create` (lines 29-147).

Steps, in source order: parse the date string strictly as dd-mm-yyyy
(failure returns before any store interaction); begin the unit; read the
merchant balance under `FOR UPDATE`; sum the catalog nominal values of the
lines; reject with `insufficientFunds` when the balance is smaller; insert
the order header (generated identifier); insert the lines while re-reading
sell prices; debit the merchant balance by the summed nominal; commit.
Every failure after begin rolls the unit back: the returned store is the
original one. -/
def create (db : DB) (f : Faults) (p : Transactions) : CreateOut :=
  match parseDate p.transactionDate with
  | none => { result := .error .invalidDate, db := db }
  | some parsedDate =>
    if f.beginFail then { result := .error .beginFailed, db := db }
    else
      match findRow p.merchantId db.merchants with
      | none => { result := .error .storage, db := db }
      | some currentBalance =>
        match sumNominals db p.transactionDetail with
        | none => { result := .error .storage, db := db }
        | some totalNominal =>
          if currentBalance < totalNominal then
            { result := .error (.insufficientFunds totalNominal currentBalance)
              db := db }
          else
            if f.headerFail then { result := .error .storage, db := db }
            else
              match processLines db f db.nextTransactionId db.nextDetailId 0
                  p.transactionDetail with
              | .error e => { result := .error e, db := db }
              | .ok (rows, details2, nextDid) =>
                if f.balanceUpdateFail then { result := .error .storage, db := db }
                else if f.commitFail then { result := .error .storage, db := db }
                else
                  { result := .ok { p with
                      transactionsId := db.nextTransactionId
                      transactionDate := formatDate parsedDate
                      transactionDetail := details2 }
                    db := { db with
                      merchants := debit db.merchants p.merchantId totalNominal
                      transactions := db.transactions ++
                        [{ transactionId := db.nextTransactionId
                           merchantId := p.merchantId
                           userId := p.userId
                           customerName := p.customerName
                           destinationNumber := p.destinationNumber
                           transactionDate := parsedDate }]
                      details := db.details ++ rows
                      nextTransactionId := db.nextTransactionId + 1
                      nextDetailId := nextDid } }

/-! ## Read paths: `GetAll` (list by user) and `GetById`

Both queries join `transactions`, `mst_user`, `mst_merchant`,
`transaction_detail` and `mst_product` into flat rows and regroup them in
memory.  The row types below carry exactly the columns each query scans;
the aggregate types mirror `custom.TransactionsReq` and its parts as used
by the repository.
-/

/-- Mirror of `custom.UserRes`: the user columns scanned by both read queries. -/
structure UserRes where
  idUser : String
  username : String
  role : String
  deriving DecidableEq

/-- Mirror of `custom.MerchantRes`: the merchant columns scanned by both read
queries. -/
structure MerchantRes where
  idMerchant : String
  nameMerchant : String
  address : String
  deriving DecidableEq

/-- Mirror of `custom.ProductRes`: the product columns scanned by both read
queries. -/
structure ProductRes where
  idProduct : String
  nameProvider : String
  nominal : Rat
  price : Rat
  deriving DecidableEq

/-- Mirror of `custom.TransactionDetailReq`: one line of an aggregate.  `GetAll`
scans `td.transaction_id` into `transactionsId`; `GetById` does not select
that column, so there it stays at its zero value. -/
structure TransactionDetailReq where
  transactionDetailId : Nat
  transactionsId : Nat
  product : ProductRes
  deriving DecidableEq

/-- Mirror of `custom.TransactionsReq`: the nested aggregate returned by the read
paths. -/
structure TransactionsReq where
  transactionsId : Nat
  customerName : String
  destinationNumber : String
  transactionDate : Date
  user : UserRes
  merchant : MerchantRes
  transactionDetail : List TransactionDetailReq
  deriving DecidableEq

/-- The zero value of `custom.TransactionsReq`, as returned by `GetById`
when the query yields no rows. -/
def emptyTransactionsReq : TransactionsReq :=
  { transactionsId := 0
    customerName := ""
    destinationNumber := ""
    transactionDate := { day := 0, month := 0, year := 0 }
    user := { idUser := "", username := "", role := "" }
    merchant := { idMerchant := "", nameMerchant := "", address := "" }
    transactionDetail := [] }

/-- One flat row of the `GetAll` join, in the column order of the SELECT at
lines 150-168 of the source (the query orders rows by
`t.transaction_date DESC`). -/
structure GetAllRow where
  transactionId : Nat
  customerName : String
  destinationNumber : String
  transactionDate : Date
  idUser : String
  username : String
  role : String
  idMerchant : String
  nameMerchant : String
  address : String
  transactionDetailId : Nat
  tdTransactionId : Nat
  idProduct : String
  nameProvider : String
  nominal : Rat
  price : Rat
  deriving DecidableEq

/-- The detail built from one scanned `GetAll` row (`transactionDetail`
with its embedded `product`, lines 186-201). -/
def GetAllRow.detail (r : GetAllRow) : TransactionDetailReq :=
  { transactionDetailId := r.transactionDetailId
    transactionsId := r.tdTransactionId
    product :=
      { idProduct := r.idProduct
        nameProvider := r.nameProvider
        nominal := r.nominal
        price := r.price } }

/-- The fresh aggregate built from one scanned `GetAll` row when its
transaction identifier is seen for the first time (lines 205-210). -/
def GetAllRow.aggregate (r : GetAllRow) : TransactionsReq :=
  { transactionsId := r.transactionId
    customerName := r.customerName
    destinationNumber := r.destinationNumber
    transactionDate := r.transactionDate
    user := { idUser := r.idUser, username := r.username, role := r.role }
    merchant :=
      { idMerchant := r.idMerchant
        nameMerchant := r.nameMerchant
        address := r.address }
    transactionDetail := [r.detail] }

/-- One scan step of the `GetAll` grouping loop (lines 181-211): append the
row's detail to the existing aggregate with the same transaction
identifier, or start a new aggregate.  The association-list-in-insertion-
order stands for the contents of the Go `transactionMap`. -/
def scanAllRow (acc : List TransactionsReq) (r : GetAllRow) : List TransactionsReq :=
  if acc.any (fun t => t.transactionsId == r.transactionId) then
    acc.map (fun t =>
      if t.transactionsId == r.transactionId then
        { t with transactionDetail := t.transactionDetail ++ [r.detail] }
      else t)
  else
    acc ++ [r.aggregate]

/-- The contents of `transactionMap` after the `GetAll` scan loop. -/
def groupRows (rows : List GetAllRow) : List TransactionsReq :=
  rows.foldl scanAllRow []

/-- Shallow embedding of `transactionRepository.GetAll` (lines 149-225)
applied to the rows the query returned.  The final `for _, transaction :=
range transactionMap` iterates a Go map, whose iteration order is
unspecified; `order` is that iteration order, admissible when it is a
permutation of the positions of the grouped aggregates. -/
def getAll (rows : List GetAllRow) (order : List Nat) : List TransactionsReq :=
  order.filterMap (fun i => (groupRows rows)[i]?)

/-- An iteration order the Go runtime may produce for the map: any
permutation of the aggregate positions. -/
def admissibleOrder (rows : List GetAllRow) (order : List Nat) : Prop :=
  order.Perm (List.range (groupRows rows).length)

/-- Predicate holding when a date list is non-increasing (the `ORDER BY t.transaction_date
DESC` guarantee). -/
def datesSortedDesc : List Date → Bool
  | [] => true
  | [_] => true
  | a :: b :: rest => Date.leb b a && datesSortedDesc (b :: rest)

/-- One flat row of the `GetById` join, in the column order of the SELECT
at lines 228-241 of the source (no `td.transaction_id` column). -/
structure GetByIdRow where
  transactionId : Nat
  customerName : String
  destinationNumber : String
  transactionDate : Date
  idUser : String
  username : String
  role : String
  idMerchant : String
  nameMerchant : String
  address : String
  transactionDetailId : Nat
  idProduct : String
  nameProvider : String
  nominal : Rat
  price : Rat
  deriving DecidableEq

/-- The detail built from one scanned `GetById` row; `td.transaction_id`
is not selected, so `transactionsId` keeps its zero value. -/
def GetByIdRow.detail (r : GetByIdRow) : TransactionDetailReq :=
  { transactionDetailId := r.transactionDetailId
    transactionsId := 0
    product :=
      { idProduct := r.idProduct
        nameProvider := r.nameProvider
        nominal := r.nominal
        price := r.price } }

/-- Scanning one `GetById` row overwrites the header, user and merchant
fields of the single aggregate under construction (lines 261-271). -/
def scanByIdRow (t : TransactionsReq) (r : GetByIdRow) : TransactionsReq :=
  { t with
    transactionsId := r.transactionId
    customerName := r.customerName
    destinationNumber := r.destinationNumber
    transactionDate := r.transactionDate
    user := { idUser := r.idUser, username := r.username, role := r.role }
    merchant :=
      { idMerchant := r.idMerchant
        nameMerchant := r.nameMerchant
        address := r.address } }

/-- Model of the map write at line 275 (`transactionDetailMap[...] = detail`): overwrite the
entry with the same line identifier, or append.  Insertion-ordered
association list standing for the Go map. -/
def insertDetail (acc : List TransactionDetailReq) (d : TransactionDetailReq) :
    List TransactionDetailReq :=
  if acc.any (fun x => x.transactionDetailId == d.transactionDetailId) then
    acc.map (fun x => if x.transactionDetailId == d.transactionDetailId then d else x)
  else
    acc ++ [d]

/-- The `GetById` scan loop (lines 254-281).  Go's `sql.Rows.Next` advances
the cursor each time it is called; the source calls it both in the `for`
condition and again at the bottom of the body (`if !rows.Next() { break }`),
so after scanning a row the cursor moves past the following row without
scanning it: rows at positions 0, 2, 4, ... are scanned, the others are
skipped. -/
def getByIdLoop : List GetByIdRow → TransactionsReq → List TransactionDetailReq →
    TransactionsReq × List TransactionDetailReq
  | [], t, acc => (t, acc)
  | [r], t, acc => (scanByIdRow t r, insertDetail acc r.detail)
  | r :: _ :: rest, t, acc => getByIdLoop rest (scanByIdRow t r) (insertDetail acc r.detail)

/-- Shallow embedding of `transactionRepository.GetById` (lines 227-287)
applied to the rows the query returned: run the scan loop from the
zero-valued aggregate and an empty line map, then flatten the line map
into the aggregate's line collection. -/
def getById (rows : List GetByIdRow) : TransactionsReq :=
  let out := getByIdLoop rows emptyTransactionsReq []
  { out.1 with transactionDetail := out.1.transactionDetail ++ out.2 }

/-! ## Concrete stores, payloads and row sets used in witnesses and
counterexamples -/

/-- A store with one merchant (balance 100) and three catalog products. -/
def dbW : DB :=
  { merchants := [("m1", 100)]
    products := [("p1", { nominal := 5, price := 8 }),
                 ("p2", { nominal := 20, price := 25 }),
                 ("p3", { nominal := 200, price := 240 })]
    transactions := []
    details := []
    nextTransactionId := 10
    nextDetailId := 100 }

/-- A two-line order whose caller-supplied prices (999, 777) differ from
the catalog sell prices (8, 25); total nominal 5 + 20 = 25 ≤ balance 100. -/
def payW : Transactions :=
  { transactionsId := 0
    merchantId := "m1"
    userId := "u1"
    customerName := "Budi"
    destinationNumber := "0812"
    transactionDate := "15-01-2024"
    transactionDetail :=
      [{ transactionDetailId := 0, transactionsId := 0, productId := "p1", price := 999 },
       { transactionDetailId := 0, transactionsId := 0, productId := "p2", price := 777 }] }

/-- The order `create dbW noFaults payW` returns. -/
def resW : Transactions :=
  { transactionsId := 10
    merchantId := "m1"
    userId := "u1"
    customerName := "Budi"
    destinationNumber := "0812"
    transactionDate := "15-01-2024"
    transactionDetail :=
      [{ transactionDetailId := 100, transactionsId := 10, productId := "p1", price := 8 },
       { transactionDetailId := 101, transactionsId := 10, productId := "p2", price := 25 }] }

/-- The store after `create dbW noFaults payW` commits. -/
def dbW2 : DB :=
  { merchants := [("m1", 75)]
    products := dbW.products
    transactions :=
      [{ transactionId := 10
         merchantId := "m1"
         userId := "u1"
         customerName := "Budi"
         destinationNumber := "0812"
         transactionDate := { day := 15, month := 1, year := 2024 } }]
    details :=
      [{ transactionDetailId := 100, transactionId := 10, productId := "p1", price := 999 },
       { transactionDetailId := 101, transactionId := 10, productId := "p2", price := 777 }]
    nextTransactionId := 11
    nextDetailId := 102 }

/-- An order for product p3 alone: total nominal 200 > balance 100. -/
def payInsufficient : Transactions :=
  { payW with transactionDetail :=
      [{ transactionDetailId := 0, transactionsId := 0, productId := "p3", price := 1 }] }

/-- Payload `payW` with a year-first date string, rejected by strict dd-mm-yyyy
parsing. -/
def payBadDate : Transactions :=
  { payW with transactionDate := "2024-01-15" }

/-- Payload `payW` with no order lines. -/
def payEmptyLines : Transactions :=
  { payW with transactionDetail := [] }

/-- Injected failure of the balance `UPDATE`, after the header and the
lines were already inserted inside the unit. -/
def faultBalance : Faults :=
  { noFaults with balanceUpdateFail := true }

/-- Injected failure of the `BEGIN` itself. -/
def faultBegin : Faults :=
  { noFaults with beginFail := true }

/-- One flat `GetAll` row for order `tid` dated `dt`, line `did`. -/
def mkListRow (tid : Nat) (dt : Date) (did : Nat) : GetAllRow :=
  { transactionId := tid
    customerName := "Budi"
    destinationNumber := "0812"
    transactionDate := dt
    idUser := "u1"
    username := "budi"
    role := "employee"
    idMerchant := "m1"
    nameMerchant := "Cell"
    address := "Jl. 1"
    transactionDetailId := did
    tdTransactionId := tid
    idProduct := "p1"
    nameProvider := "prov"
    nominal := 5
    price := 8 }

/-- The `GetAll` result set of the claim's scenario: two orders with two
lines each, scanned in descending date order (order 1 dated 15-02-2024,
order 2 dated 10-01-2024), as the query's `ORDER BY` delivers them. -/
def rowsListByUser : List GetAllRow :=
  [mkListRow 1 { day := 15, month := 2, year := 2024 } 11,
   mkListRow 1 { day := 15, month := 2, year := 2024 } 12,
   mkListRow 2 { day := 10, month := 1, year := 2024 } 21,
   mkListRow 2 { day := 10, month := 1, year := 2024 } 22]

/-- One flat `GetById` row of order 5 with line `did`. -/
def mkByIdRow (did : Nat) : GetByIdRow :=
  { transactionId := 5
    customerName := "Budi"
    destinationNumber := "0812"
    transactionDate := { day := 1, month := 1, year := 2024 }
    idUser := "u1"
    username := "budi"
    role := "employee"
    idMerchant := "m1"
    nameMerchant := "Cell"
    address := "Jl. 1"
    transactionDetailId := did
    idProduct := "p1"
    nameProvider := "prov"
    nominal := 5
    price := 8 }

/-- The `GetById` result set of the claim's scenario: one order with two
distinct lines, one row per line. -/
def rowsGetById : List GetByIdRow :=
  [mkByIdRow 101, mkByIdRow 102]

/-! ## Helper lemmas -/

theorem findRow_debit (ms : List (String × Rat)) (k : String) (amt : Rat) :
    findRow k (debit ms k amt) = (findRow k ms).map (fun b => b - amt) := by
  induction ms with
  | nil => rfl
  | cons kv ms ih =>
    rcases kv with ⟨k1, b1⟩
    by_cases h : k1 = k
    · simp [debit, findRow, h]
    · simp only [debit] at ih
      simp [debit, findRow, h, ih]

theorem debit_zero (ms : List (String × Rat)) (k : String) :
    debit ms k 0 = ms := by
  induction ms with
  | nil => rfl
  | cons kv ms ih =>
    rcases kv with ⟨k1, b1⟩
    simp only [debit, List.map_cons] at ih ⊢
    rw [ih]
    by_cases h : k1 = k <;> simp [h]

/-- Everything the per-line loop guarantees when it succeeds: the inserted
`transaction_detail` rows carry the caller-supplied prices and product
identifiers; the returned in-memory details are as many as the input lines,
carry consecutive generated identifiers starting at `nextDid`, reference
the order, and carry the catalog sell price of an existing product. -/
theorem processLines_ok_spec (db : DB) (f : Faults) (tx : Nat) :
    ∀ (ds : List TransactionDetail) (nextDid idx : Nat)
      (rows : List DetailRow) (ds2 : List TransactionDetail) (did : Nat),
      processLines db f tx nextDid idx ds = .ok (rows, ds2, did) →
      (rows.map fun r => r.price) = (ds.map fun d => d.price) ∧
      (rows.map fun r => r.productId) = (ds.map fun d => d.productId) ∧
      ds2.length = ds.length ∧
      (ds2.map fun d => d.transactionDetailId) = List.range' nextDid ds.length ∧
      ∀ d ∈ ds2, d.transactionsId = tx ∧
        ∃ prod, findRow d.productId db.products = some prod ∧ d.price = prod.price := by
  intro ds
  induction ds with
  | nil =>
    intro nextDid idx rows ds2 did h
    simp only [processLines, Except.ok.injEq, Prod.mk.injEq] at h
    obtain ⟨hr, hd, _⟩ := h
    subst hr; subst hd
    simp
  | cons d ds ih =>
    intro nextDid idx rows ds2 did h
    rw [processLines] at h
    split at h
    · simp at h
    · rename_i hlf
      split at h
      · simp at h
      · rename_i hpf
        split at h
        · simp at h
        · rename_i prod hlook
          split at h
          · simp at h
          · rename_i rows1 ds1 did1 hrec
            simp only [Except.ok.injEq, Prod.mk.injEq] at h
            obtain ⟨h1, h2, h3⟩ := h
            subst h1; subst h2; subst h3
            obtain ⟨ih1, ih2, ih3, ih4, ih5⟩ := ih (nextDid + 1) (idx + 1) rows1 ds1 did1 hrec
            refine ⟨by simp [ih1], by simp [ih2], by simp [ih3], ?_, ?_⟩
            · simp [List.range'_succ, ih4]
            · intro x hx
              rcases List.mem_cons.mp hx with hx | hx
              · subst hx
                exact ⟨rfl, prod, hlook, rfl⟩
              · exact ih5 x hx

/-- Characterization of a committed submission: when `create` returns
`ok`, every validation passed, and the resulting store and returned order
are exactly those built by the algorithm. -/
theorem create_ok_spec (db : DB) (f : Faults) (p : Transactions)
    (res : Transactions) (db2 : DB)
    (h : create db f p = { result := .ok res, db := db2 }) :
    ∃ parsedDate currentBalance totalNominal rows details2 nextDid,
      parseDate p.transactionDate = some parsedDate ∧
      findRow p.merchantId db.merchants = some currentBalance ∧
      sumNominals db p.transactionDetail = some totalNominal ∧
      ¬ currentBalance < totalNominal ∧
      processLines db f db.nextTransactionId db.nextDetailId 0 p.transactionDetail
        = .ok (rows, details2, nextDid) ∧
      res = { p with
              transactionsId := db.nextTransactionId
              transactionDate := formatDate parsedDate
              transactionDetail := details2 } ∧
      db2 = { db with
              merchants := debit db.merchants p.merchantId totalNominal
              transactions := db.transactions ++
                [{ transactionId := db.nextTransactionId
                   merchantId := p.merchantId
                   userId := p.userId
                   customerName := p.customerName
                   destinationNumber := p.destinationNumber
                   transactionDate := parsedDate }]
              details := db.details ++ rows
              nextTransactionId := db.nextTransactionId + 1
              nextDetailId := nextDid } := by
  unfold create at h
  split at h
  · simp [CreateOut.mk.injEq] at h
  · rename_i parsedDate hdate
    split at h
    · simp [CreateOut.mk.injEq] at h
    · rename_i hbegin
      split at h
      · simp [CreateOut.mk.injEq] at h
      · rename_i currentBalance hbal
        split at h
        · simp [CreateOut.mk.injEq] at h
        · rename_i totalNominal htotal
          split at h
          · simp [CreateOut.mk.injEq] at h
          · rename_i hfunds
            split at h
            · simp [CreateOut.mk.injEq] at h
            · rename_i hheader
              split at h
              · simp [CreateOut.mk.injEq] at h
              · rename_i rows details2 nextDid hlines
                split at h
                · simp [CreateOut.mk.injEq] at h
                · rename_i hbalu
                  split at h
                  · simp [CreateOut.mk.injEq] at h
                  · simp only [CreateOut.mk.injEq, Except.ok.injEq] at h
                    obtain ⟨hres, hdb⟩ := h
                    exact ⟨parsedDate, currentBalance, totalNominal, rows, details2,
                      nextDid, hdate, hbal, htotal, hfunds, hlines, hres.symm, hdb.symm⟩

/-! ## Claim theorems -/

/-- C1: whenever the summed catalog nominal value of a submitted order
exceeds the merchant balance read under the row lock, `create` fails with
the insufficient-funds error carrying the required amount (`totalNominal`)
and the available amount (`currentBalance`), and the store is returned
unchanged: no order header, no order lines, no balance change. -/
theorem create_insufficient_funds_rejects (db : DB) (f : Faults) (p : Transactions)
    (d : Date) (currentBalance totalNominal : Rat)
    (hdate : parseDate p.transactionDate = some d)
    (hbegin : f.beginFail = false)
    (hbal : findRow p.merchantId db.merchants = some currentBalance)
    (htotal : sumNominals db p.transactionDetail = some totalNominal)
    (hlt : currentBalance < totalNominal) :
    create db f p =
      { result := .error (.insufficientFunds totalNominal currentBalance), db := db } := by
  unfold create
  rw [hdate, hbegin, hbal, htotal]
  simp [hlt]

/-- Witness for C1: merchant balance 100, one line of nominal 200. -/
theorem create_insufficient_funds_rejects_witness :
    parseDate payInsufficient.transactionDate = some { day := 15, month := 1, year := 2024 } ∧
    noFaults.beginFail = false ∧
    findRow payInsufficient.merchantId dbW.merchants = some 100 ∧
    sumNominals dbW payInsufficient.transactionDetail = some 200 ∧
    (100 : Rat) < 200 ∧
    create dbW noFaults payInsufficient =
      { result := .error (.insufficientFunds 200 100), db := dbW } := by
  refine ⟨rfl, rfl, rfl, by with_unfolding_all rfl, by norm_num, ?_⟩
  exact create_insufficient_funds_rejects dbW noFaults payInsufficient
    { day := 15, month := 1, year := 2024 } 100 200
    rfl rfl rfl (by with_unfolding_all rfl) (by norm_num)

/-- C2: when `create` commits, the merchant balance in the resulting store
is the balance read at the start minus the summed catalog *nominal* values
of the order's lines (`sumNominals` reads the `nominal` column, not the
sell price). -/
theorem create_ok_debits_total_nominal (db : DB) (f : Faults) (p : Transactions)
    (res : Transactions) (db2 : DB) (currentBalance totalNominal : Rat)
    (h : create db f p = { result := .ok res, db := db2 })
    (hbal : findRow p.merchantId db.merchants = some currentBalance)
    (htotal : sumNominals db p.transactionDetail = some totalNominal) :
    findRow p.merchantId db2.merchants = some (currentBalance - totalNominal) := by
  obtain ⟨pd, bal, tot, rows, det2, nd, hdate, hbal2, htot2, hfunds, hlines, hres, hdb⟩ :=
    create_ok_spec db f p res db2 h
  rw [hbal] at hbal2
  rw [htotal] at htot2
  injection hbal2 with hb
  injection htot2 with ht
  subst hb
  subst ht
  subst hdb
  rw [show ({ db with
        merchants := debit db.merchants p.merchantId totalNominal
        transactions := db.transactions ++
          [{ transactionId := db.nextTransactionId
             merchantId := p.merchantId
             userId := p.userId
             customerName := p.customerName
             destinationNumber := p.destinationNumber
             transactionDate := pd }]
        details := db.details ++ rows
        nextTransactionId := db.nextTransactionId + 1
        nextDetailId := nd } : DB).merchants
      = debit db.merchants p.merchantId totalNominal from rfl]
  rw [findRow_debit, hbal]
  rfl

/-- Witness for C2: balance 100, nominals 5 + 20; final balance 75. -/
theorem create_ok_debits_total_nominal_witness :
    create dbW noFaults payW = { result := .ok resW, db := dbW2 } ∧
    findRow payW.merchantId dbW.merchants = some 100 ∧
    sumNominals dbW payW.transactionDetail = some 25 ∧
    findRow payW.merchantId dbW2.merchants = some (100 - 25) := by
  have h : create dbW noFaults payW = { result := .ok resW, db := dbW2 } := by
    with_unfolding_all rfl
  exact ⟨h, rfl, by with_unfolding_all rfl,
    create_ok_debits_total_nominal dbW noFaults payW resW dbW2 100 25 h rfl
      (by with_unfolding_all rfl)⟩

/-- C3: every failing submission — wherever the failure strikes after the
unit begins: balance read, nominal read, funds check, header insert, line
insert, sell-price re-read, balance update, or commit — returns the store
unchanged: no header, no lines, no balance change persist (all-or-nothing;
the quantification over `Faults` covers every failure point, and no error
branch of `create` returns a modified store). -/
theorem create_failure_rolls_back_all (db : DB) (f : Faults) (p : Transactions)
    (e : CreateError) (db2 : DB)
    (h : create db f p = { result := .error e, db := db2 }) :
    db2 = db := by
  unfold create at h
  repeat' split at h
  all_goals simp_all [CreateOut.mk.injEq]

/-- Witness for C3: the balance update fails after both inserts; the
returned store is the original. -/
theorem create_failure_rolls_back_all_witness :
    create dbW faultBalance payW = { result := .error .storage, db := dbW } ∧
    dbW = dbW := by
  have h : create dbW faultBalance payW = { result := .error .storage, db := dbW } := by
    with_unfolding_all rfl
  exact ⟨h, create_failure_rolls_back_all dbW faultBalance payW .storage dbW h⟩

/-- C6: when the date string does not parse in strict dd-mm-yyyy format,
`create` returns the validation error and performs zero store accesses.
"Zero store accesses" is formalized by quantifying over the entire store
and all injectable store faults: the result is the same for every store
`db` (no read reaches the store, so nothing read can influence it), the
returned store is `db` itself (no write reaches the store), and the result
is unchanged even when `f.beginFail` is set (the atomic unit is never
begun, or the begin failure would surface instead). -/
theorem create_invalid_date_no_store_access (db : DB) (f : Faults) (p : Transactions)
    (h : parseDate p.transactionDate = none) :
    create db f p = { result := .error .invalidDate, db := db } := by
  unfold create
  rw [h]

/-- Witness for C6: the year-first string `"2024-01-15"` fails to parse,
and the validation error is returned even from a store whose begin would
fail. -/
theorem create_invalid_date_no_store_access_witness :
    parseDate payBadDate.transactionDate = none ∧
    create dbW faultBegin payBadDate = { result := .error .invalidDate, db := dbW } := by
  exact ⟨rfl, create_invalid_date_no_store_access dbW faultBegin payBadDate rfl⟩

/-- C4 counterexample: the claim "the price stored in the order-line row
is the product's sell price re-read from the catalog" is false on the
code.  The source inserts the row with the caller-supplied price (line 95)
and only afterwards overwrites the *in-memory* detail with the re-read
sell price (line 114); the row itself is never updated.  Here the caller
supplies 999 and 777 for products whose catalog sell prices are 8 and 25,
the submission commits, and the persisted rows carry 999 and 777. -/
theorem create_line_row_keeps_caller_price_cex :
    (create dbW noFaults payW).result = .ok resW ∧
    ((create dbW noFaults payW).db.details.map fun r => r.price) = [999, 777] ∧
    (payW.transactionDetail.map fun d => d.price) = [999, 777] ∧
    ((findRow "p1" dbW.products).map fun prod => prod.price) = some 8 ∧
    ((findRow "p2" dbW.products).map fun prod => prod.price) = some 25 ∧
    ((create dbW noFaults payW).db.details.map fun r => r.price) ≠ [8, 25] := by
  refine ⟨by with_unfolding_all rfl, by with_unfolding_all rfl, rfl, rfl, rfl, ?_⟩
  with_unfolding_all decide

/-- C4 amended: the price stored in each persisted order-line row is the
caller-supplied price of the corresponding input line; the catalog sell
price only replaces it in the in-memory order that is returned to the
caller. -/
theorem create_ok_line_rows_store_caller_prices (db : DB) (f : Faults) (p : Transactions)
    (res : Transactions) (db2 : DB)
    (h : create db f p = { result := .ok res, db := db2 }) :
    (db2.details.map fun r => r.price) =
      (db.details.map fun r => r.price) ++ (p.transactionDetail.map fun d => d.price) := by
  obtain ⟨pd, bal, tot, rows, det2, nd, hdate, hbal2, htot2, hfunds, hlines, hres, hdb⟩ :=
    create_ok_spec db f p res db2 h
  obtain ⟨h1, -, -, -, -⟩ :=
    processLines_ok_spec db f db.nextTransactionId p.transactionDetail
      db.nextDetailId 0 rows det2 nd hlines
  subst hdb
  simp [h1]

/-- Witness for the amended C4 at the concrete submission. -/
theorem create_ok_line_rows_store_caller_prices_witness :
    create dbW noFaults payW = { result := .ok resW, db := dbW2 } ∧
    (dbW2.details.map fun r => r.price) =
      (dbW.details.map fun r => r.price) ++ (payW.transactionDetail.map fun d => d.price) := by
  have h : create dbW noFaults payW = { result := .ok resW, db := dbW2 } := by
    with_unfolding_all rfl
  exact ⟨h, create_ok_line_rows_store_caller_prices dbW noFaults payW resW dbW2 h⟩

/-- C5: every line of the order returned by a committed submission carries
the catalog's current sell price of its product, whatever price the caller
supplied (the theorem quantifies over arbitrary caller prices inside `p`);
the returned order is the single header with as many lines as the input,
each line referencing the order and carrying a generated identifier (the
identifiers are pairwise distinct, from the store's counter). -/
theorem create_ok_returned_lines_priced_from_catalog (db : DB) (f : Faults)
    (p : Transactions) (res : Transactions) (db2 : DB)
    (h : create db f p = { result := .ok res, db := db2 }) :
    res.transactionDetail.length = p.transactionDetail.length ∧
    (res.transactionDetail.map fun d => d.transactionDetailId).Nodup ∧
    ∀ d ∈ res.transactionDetail,
      d.transactionsId = res.transactionsId ∧
      ∃ prod, findRow d.productId db.products = some prod ∧ d.price = prod.price := by
  obtain ⟨pd, bal, tot, rows, det2, nd, hdate, hbal2, htot2, hfunds, hlines, hres, hdb⟩ :=
    create_ok_spec db f p res db2 h
  obtain ⟨-, -, hlen, hids, hmem⟩ :=
    processLines_ok_spec db f db.nextTransactionId p.transactionDetail
      db.nextDetailId 0 rows det2 nd hlines
  subst hres
  refine ⟨by simpa using hlen, ?_, ?_⟩
  · simpa [hids] using List.nodup_range' db.nextDetailId p.transactionDetail.length
  · simpa using hmem

/-- Witness for C5 at the concrete submission: both returned lines carry
the catalog prices 8 and 25 although the caller sent 999 and 777. -/
theorem create_ok_returned_lines_priced_from_catalog_witness :
    create dbW noFaults payW = { result := .ok resW, db := dbW2 } ∧
    resW.transactionDetail.length = payW.transactionDetail.length ∧
    (resW.transactionDetail.map fun d => d.transactionDetailId).Nodup ∧
    ∀ d ∈ resW.transactionDetail,
      d.transactionsId = resW.transactionsId ∧
      ∃ prod, findRow d.productId dbW.products = some prod ∧ d.price = prod.price := by
  have h : create dbW noFaults payW = { result := .ok resW, db := dbW2 } := by
    with_unfolding_all rfl
  obtain ⟨h1, h2, h3⟩ :=
    create_ok_returned_lines_priced_from_catalog dbW noFaults payW resW dbW2 h
  exact ⟨h, h1, h2, h3⟩

/-- C10: the one-or-more-lines precondition is not enforced.  With a valid
date, an existing merchant whose balance is non-negative, and an empty
line list, `create` succeeds: the store gains exactly the order header
(and nothing else — the details table and the merchant balances are
untouched, the debit being by 0), and the returned order has no lines. -/
theorem create_empty_order_accepted (db : DB) (p : Transactions) (d : Date)
    (currentBalance : Rat)
    (hdate : parseDate p.transactionDate = some d)
    (hempty : p.transactionDetail = [])
    (hbal : findRow p.merchantId db.merchants = some currentBalance)
    (hnn : 0 ≤ currentBalance) :
    create db noFaults p =
      { result := .ok { p with
          transactionsId := db.nextTransactionId
          transactionDate := formatDate d
          transactionDetail := [] }
        db := { db with
          transactions := db.transactions ++
            [{ transactionId := db.nextTransactionId
               merchantId := p.merchantId
               userId := p.userId
               customerName := p.customerName
               destinationNumber := p.destinationNumber
               transactionDate := d }]
          nextTransactionId := db.nextTransactionId + 1 } } := by
  unfold create
  rw [hdate, hbal, hempty]
  simp [noFaults, sumNominals, processLines, not_lt.mpr hnn, debit_zero]

/-- Witness for C10: the empty-line payload against the concrete store. -/
theorem create_empty_order_accepted_witness :
    parseDate payEmptyLines.transactionDate = some { day := 15, month := 1, year := 2024 } ∧
    payEmptyLines.transactionDetail = [] ∧
    findRow payEmptyLines.merchantId dbW.merchants = some 100 ∧
    (0 : Rat) ≤ 100 ∧
    create dbW noFaults payEmptyLines =
      { result := .ok { payEmptyLines with
          transactionsId := dbW.nextTransactionId
          transactionDate := formatDate { day := 15, month := 1, year := 2024 }
          transactionDetail := [] }
        db := { dbW with
          transactions := dbW.transactions ++
            [{ transactionId := dbW.nextTransactionId
               merchantId := payEmptyLines.merchantId
               userId := payEmptyLines.userId
               customerName := payEmptyLines.customerName
               destinationNumber := payEmptyLines.destinationNumber
               transactionDate := { day := 15, month := 1, year := 2024 } }]
          nextTransactionId := dbW.nextTransactionId + 1 } } := by
  refine ⟨rfl, rfl, rfl, by norm_num, ?_⟩
  exact create_empty_order_accepted dbW payEmptyLines
    { day := 15, month := 1, year := 2024 } 100 rfl rfl rfl (by norm_num)

/-- C7: the claim is right about the grouping but the code loses the
ordering.  On the scenario row set (two orders with two lines each,
delivered by the query in descending date order), the grouping produces
one aggregate per distinct order identifier with exactly that order's
lines in scan order; but the final list is built by iterating a Go map,
whose iteration order is unspecified, so the admissible iteration order
`[1, 0]` yields the aggregates in ascending date order — the output is
not ordered by transaction date descending as the claim (and the query's
`ORDER BY`) intend. -/
theorem getAll_map_iteration_loses_date_order :
    datesSortedDesc (rowsListByUser.map fun r => r.transactionDate) = true ∧
    (groupRows rowsListByUser).length = 2 ∧
    (∀ t ∈ groupRows rowsListByUser, t.transactionDetail.length = 2) ∧
    ((groupRows rowsListByUser).map fun t =>
      (t.transactionsId, t.transactionDetail.map fun d => d.transactionDetailId))
      = [(1, [11, 12]), (2, [21, 22])] ∧
    admissibleOrder rowsListByUser [1, 0] ∧
    ((getAll rowsListByUser [1, 0]).map fun t => t.transactionsId) = [2, 1] ∧
    datesSortedDesc ((getAll rowsListByUser [1, 0]).map fun t => t.transactionDate) = false := by
  refine ⟨by with_unfolding_all decide, by with_unfolding_all decide,
    by with_unfolding_all decide, by with_unfolding_all decide, ?_,
    by with_unfolding_all decide, by with_unfolding_all decide⟩
  unfold admissibleOrder
  with_unfolding_all decide

/-- C8: the claim is right about the intent but the code skips rows.  The
`GetById` loop calls `rows.Next()` both in the `for` condition and at the
bottom of the body, so every second row is consumed without being
scanned.  On the scenario row set (one order, two distinct lines), the
returned aggregate contains only the first line, not every line. -/
theorem getById_skips_alternate_rows :
    rowsGetById.length = 2 ∧
    (rowsGetById.map fun r => r.transactionDetailId) = [101, 102] ∧
    ((getById rowsGetById).transactionDetail.map fun d => d.transactionDetailId) = [101] ∧
    (getById rowsGetById).transactionDetail.length ≠ 2 := by
  with_unfolding_all decide

/-- C9: when the `GetById` query yields zero rows, the function returns
the zero-valued aggregate — empty header, user, merchant and line
collection — and no error (the scan loop is never entered and no
not-found branch exists). -/
theorem getById_no_rows_zero_aggregate :
    getById [] = emptyTransactionsReq := by
  rfl

end Pulsa
